import Mathlib

/-
Verification of the upgrade-agent orchestrator (package agent, package
grpcclient, package config) against its natural-language specification.

The Go sources are shallowly embedded: every external effect (gRPC call,
durable-store file operation, sleep) is driven by an explicit environment
value describing its outcome, and the orchestrator functions are translated
as pure Lean functions that return the ordered trace of effects they perform.
Machine integers appear only as gRPC status-code numerals (Nat).
-/

namespace UpgradeAgent

/-- Numeric value of the gRPC status code Unimplemented (codes.Unimplemented). -/
def unimplementedCode : Nat := 12

/-- A gRPC error as seen through status.FromError: the field code is
some c when FromError reports ok (the error carries a gRPC status whose
numeric code is c), and none when the error is not a status error. -/
structure GrpcError where
  code : Option Nat
  deriving DecidableEq, Repr

/-- Configuration snapshot, from internal/config/config.go (struct Config).
Field updateMlnxCpldFw is a YAML string, not a bool, exactly as in the
source. -/
structure Config where
  grpcTarget : String
  firmwareSource : String
  updateMlnxCpldFw : String
  targetVersion : String
  ignoreUnimplementedRPC : Bool
  deriving DecidableEq, Repr

/-- The zero value of Config (all strings empty, flag false), as produced by
a Go var declaration without initialization. -/
def emptyConfig : Config :=
  { grpcTarget := ""
    firmwareSource := ""
    updateMlnxCpldFw := ""
    targetVersion := ""
    ignoreUnimplementedRPC := false }

/-- Durable upgrade-state record, from the agent state file code
(struct UpgradeState). -/
structure UpgradeState where
  inProgress : Bool
  targetVersion : String
  config : Config
  deriving DecidableEq, Repr

/-- Parameters of the firmware-update RPC, from gnoi_sonic
FirmwareUpdateParams as populated by performUpdate. -/
structure FirmwareUpdateParams where
  firmwareSource : String
  updateMlnxCpldFw : Bool
  deriving DecidableEq, Repr

/-- Outcome of a unary RPC: either a successful response of type A or a
gRPC error. -/
inductive RpcResult (A : Type) where
  | ok (a : A)
  | err (e : GrpcError)
  deriving DecidableEq, Repr

/-- Response of gNOI OS.Verify as used by the agent (GetOSVersion). -/
structure OsVerifyResp where
  version : String
  activationFailMessage : String
  deriving DecidableEq, Repr

/-- Translation of Agent.shouldIgnoreError (agent.go): true when the
configuration flag ignoreUnimplementedRPC is set and the error carries
gRPC status code Unimplemented. -/
def shouldIgnoreError (err : GrpcError) (cfg : Config) : Bool :=
  if !cfg.ignoreUnimplementedRPC then false
  else
    match err.code with
    | some c => c == unimplementedCode
    | none => false

/-- The in-memory orchestrator fields mutated by Agent.UpdateConfig
(currentConfig and lastVersion; the client handle is not touched there). -/
structure AgentSt where
  currentConfig : Config
  lastVersion : String
  deriving DecidableEq, Repr

/-- Translation of Agent.UpdateConfig (agent.go lines 31 to 49): stores the
new snapshot, decides the spawn using the previous lastVersion, then
unconditionally updates lastVersion to the new target version. The Bool
component records whether go performUpdate was spawned. -/
def UpdateConfig (a : AgentSt) (cfg : Config) : AgentSt × Bool :=
  let spawn := a.lastVersion != "" && a.lastVersion != cfg.targetVersion
  ({ currentConfig := cfg, lastVersion := cfg.targetVersion }, spawn)

/-- One observable step of the workflow, in program order. Each event
records the effect the code performs together with the outcome the
environment gave it: the diagnostic GetSystemTime and GetOSVersion calls,
the firmware-update RPC, the durable-store write (saveUpgradeState, with
ok recording whether the file operations succeeded), the Reboot RPC, the
five-second sleep after a successful reboot request, the entry log line of
performPostRebootVerification (which prints the target version of the
configuration the function was handed), the post-reboot GetOSVersion call,
and the durable-store removal (clearUpgradeState). -/
inductive Event where
  | getTime (result : RpcResult Nat)
  | osVerifyPre (result : RpcResult OsVerifyResp)
  | updateFirmware (params : FirmwareUpdateParams) (result : Option GrpcError)
  | saveState (record : UpgradeState) (ok : Bool)
  | rebootCall (result : Option GrpcError)
  | sleepAfterRebootRequest
  | logStartVerification (targetVersion : String)
  | osVerifyPost (result : RpcResult OsVerifyResp)
  | clearState (ok : Bool)
  deriving DecidableEq, Repr

/-- Environment for one invocation of performUpdate: the outcome of each
external effect, in the order the code performs them. -/
structure UpdateEnv where
  timeResult : RpcResult Nat
  osResult : RpcResult OsVerifyResp
  updateResult : Option GrpcError
  saveOk : Bool
  rebootResult : Option GrpcError
  postOsResult : RpcResult OsVerifyResp
  clearOk : Bool
  deriving DecidableEq, Repr

/-- The firmware-update parameters built by performUpdate: the source string
is passed through and the Mellanox CPLD flag is the string comparison
cfg.UpdateMlnxCpldFw == "true" from the source. -/
def mkFirmwareParams (cfg : Config) : FirmwareUpdateParams :=
  { firmwareSource := cfg.firmwareSource
    updateMlnxCpldFw := cfg.updateMlnxCpldFw == "true" }

/-- The upgrade-state record performUpdate saves before requesting the
reboot: InProgress true, the target version and the configuration in
effect. -/
def mkUpgradeRecord (cfg : Config) : UpgradeState :=
  { inProgress := true
    targetVersion := cfg.targetVersion
    config := cfg }

/-- Whether the firmware-update RPC outcome lets the workflow proceed:
either the call returned no error, or the error is classified as
ignorable (the skipping-ahead branch of performUpdate). -/
def updateTreatedOk (cfg : Config) (env : UpdateEnv) : Bool :=
  match env.updateResult with
  | none => true
  | some e => shouldIgnoreError e cfg

/-- Translation of Agent.performPostRebootVerification: logs the target
version of the configuration it was handed, waits for stabilization, calls
GetOSVersion (logging either outcome), and always clears the durable
record regardless of that outcome. -/
def performPostRebootVerification (cfg : Config) (postOs : RpcResult OsVerifyResp)
    (clearOk : Bool) : List Event :=
  [Event.logStartVerification cfg.targetVersion,
   Event.osVerifyPost postOs,
   Event.clearState clearOk]

/-- Result of one invocation of performUpdate: the trace of effects and
whether the workflow ended in the failure branch (the early return after a
non-ignorable firmware-update error). -/
structure UpdateRun where
  trace : List Event
  failed : Bool
  deriving DecidableEq, Repr

/-- Translation of Agent.performUpdate (the durable-state version of
agent.go): diagnostic GetTime and GetOSVersion, the firmware-update RPC
(early failure return unless the error is ignorable), the boundary save of
the upgrade record, then the Reboot RPC. A successful reboot request is
followed only by the five-second sleep (the process is expected to be
killed by the reboot); an ignorable reboot error runs the verification
logic synchronously in-process; a non-ignorable reboot error clears the
durable record immediately. clientReady models the nil check on the
client handle. -/
def performUpdate (clientReady : Bool) (cfg : Config) (env : UpdateEnv) : UpdateRun :=
  if !clientReady then ⟨[], false⟩
  else
    let pre := [Event.getTime env.timeResult,
                Event.osVerifyPre env.osResult,
                Event.updateFirmware (mkFirmwareParams cfg) env.updateResult]
    if !updateTreatedOk cfg env then ⟨pre, true⟩
    else
      let afterSave := pre ++ [Event.saveState (mkUpgradeRecord cfg) env.saveOk]
      match env.rebootResult with
      | some e =>
        if shouldIgnoreError e cfg then
          ⟨afterSave ++ [Event.rebootCall (some e)]
            ++ performPostRebootVerification cfg env.postOsResult env.clearOk, false⟩
        else
          ⟨afterSave ++ [Event.rebootCall (some e), Event.clearState env.clearOk], false⟩
      | none =>
        ⟨afterSave ++ [Event.rebootCall none, Event.sleepAfterRebootRequest], false⟩

/-- Contents of the durable state file after one modeled file operation:
saveUpgradeState (when its WriteFile succeeds) makes the record present,
clearUpgradeState (when its Remove succeeds) removes it, every other event
leaves the file untouched. -/
def applyEvent (store : Option UpgradeState) : Event → Option UpgradeState
  | Event.saveState r true => some r
  | Event.clearState true => none
  | _ => store

/-- Contents of the durable state file after running a trace from an
initial file contents. -/
def storeAt (s0 : Option UpgradeState) (t : List Event) : Option UpgradeState :=
  t.foldl applyEvent s0

/-- The InProgress flag visible at observation point k of a trace started
with no state file: loadUpgradeState of a missing file yields the zero
record, whose InProgress is false. -/
def flagAt (t : List Event) (k : Nat) : Bool :=
  match storeAt none (t.take k) with
  | some r => r.inProgress
  | none => false

/-- True of events that complete a durable-store write. -/
def isSaveOkEvent : Event → Bool
  | Event.saveState _ true => true
  | _ => false

/-- True of events that complete a durable-store clear. -/
def isClearOkEvent : Event → Bool
  | Event.clearState true => true
  | _ => false

/-- Whether a completed store write occurs before observation point k. -/
def savedBefore (t : List Event) (k : Nat) : Bool :=
  (t.take k).any isSaveOkEvent

/-- Whether a completed store clear occurs before observation point k. -/
def clearedBefore (t : List Event) (k : Nat) : Bool :=
  (t.take k).any isClearOkEvent

/-- Result of loadUpgradeState: either the record it produced, or a read or
parse failure. -/
inductive LoadResult where
  | ok (s : UpgradeState)
  | err
  deriving DecidableEq, Repr

/-- Translation of loadUpgradeState (JSON state file version): a missing
file is not an error and yields the zero record (InProgress false); an
existing file yields the saved record, unless reading or parsing fails
(modeled by loadOk). -/
def loadUpgradeState (store : Option UpgradeState) (loadOk : Bool) : LoadResult :=
  match store with
  | none => LoadResult.ok ⟨false, "", emptyConfig⟩
  | some r => if loadOk then LoadResult.ok r else LoadResult.err

/-- Translation of the resume logic of Agent.Initialize: after creating the
client (clientOk models NewClient failing, which returns early) and storing
the live configuration, it loads the durable record; a load error only logs
a warning, and when the loaded record has InProgress true it spawns
performPostRebootVerification with cfg, the configuration argument of
Initialize. The returned list is the trace of the spawned verification
(empty when nothing is spawned). -/
def Initialize (cfg : Config) (store : Option UpgradeState) (clientOk loadOk : Bool)
    (postOs : RpcResult OsVerifyResp) (clearOk : Bool) : List Event :=
  if !clientOk then []
  else
    match loadUpgradeState store loadOk with
    | LoadResult.err => []
    | LoadResult.ok st =>
      if st.inProgress then performPostRebootVerification cfg postOs clearOk
      else []

/-- Claim C1: whenever the firmware-update RPC succeeds or its failure is
classified ignorable, performUpdate completes the saveUpgradeState call for
the record with InProgress true, the target version and the configuration
in effect at trace position 3, strictly before the Reboot RPC at position
4; at the observation point where the reboot is issued the durable store
already holds that record (the save has returned and, at the level of the
store contract, the write is complete). -/
theorem save_completes_before_reboot (cfg : Config) (env : UpdateEnv)
    (hu : updateTreatedOk cfg env = true) (hs : env.saveOk = true) :
    ((performUpdate true cfg env).trace.get? 3
        = some (Event.saveState (mkUpgradeRecord cfg) true))
    ∧ ((performUpdate true cfg env).trace.get? 4
        = some (Event.rebootCall env.rebootResult))
    ∧ storeAt none ((performUpdate true cfg env).trace.take 4)
        = some (mkUpgradeRecord cfg)
    ∧ (mkUpgradeRecord cfg).inProgress = true
    ∧ (mkUpgradeRecord cfg).targetVersion = cfg.targetVersion
    ∧ (mkUpgradeRecord cfg).config = cfg := by
  cases hr : env.rebootResult with
  | none =>
      simp [performUpdate, hu, hs, hr, storeAt, applyEvent, mkUpgradeRecord,
        performPostRebootVerification]
  | some e =>
      by_cases hi : shouldIgnoreError e cfg
      · simp [performUpdate, hu, hs, hr, hi, storeAt, applyEvent, mkUpgradeRecord,
          performPostRebootVerification]
      · simp [performUpdate, hu, hs, hr, hi, storeAt, applyEvent, mkUpgradeRecord,
          performPostRebootVerification]

/-- Witness for save_completes_before_reboot at a concrete configuration
and an all-success environment. -/
theorem save_completes_before_reboot_witness :
    (performUpdate true ⟨"t", "fw", "true", "2.0.0", false⟩
        ⟨RpcResult.ok 0, RpcResult.ok ⟨"1.0.0", ""⟩, none, true, none,
         RpcResult.ok ⟨"2.0.0", ""⟩, true⟩).trace.get? 3
      = some (Event.saveState (mkUpgradeRecord ⟨"t", "fw", "true", "2.0.0", false⟩) true) :=
  (save_completes_before_reboot ⟨"t", "fw", "true", "2.0.0", false⟩
    ⟨RpcResult.ok 0, RpcResult.ok ⟨"1.0.0", ""⟩, none, true, none,
     RpcResult.ok ⟨"2.0.0", ""⟩, true⟩ rfl rfl).1

/-- Claim C2: UpdateConfig spawns a workflow iff the stored lastVersion is
non-empty and differs from the new desiredVersion; afterwards the stored
snapshot equals the new snapshot and lastVersion equals the new
desiredVersion; an empty lastVersion never triggers. -/
theorem updateConfig_gate (a : AgentSt) (cfg : Config) :
    ((UpdateConfig a cfg).2 = true ↔
      (a.lastVersion ≠ "" ∧ a.lastVersion ≠ cfg.targetVersion))
    ∧ (UpdateConfig a cfg).1.currentConfig = cfg
    ∧ (UpdateConfig a cfg).1.lastVersion = cfg.targetVersion
    ∧ (a.lastVersion = "" → (UpdateConfig a cfg).2 = false) := by
  refine ⟨?_, rfl, rfl, ?_⟩
  · simp [UpdateConfig]
  · intro h
    simp [UpdateConfig, h]

/-- Witness for updateConfig_gate at a concrete state and snapshot. -/
theorem updateConfig_gate_witness :
    (UpdateConfig ⟨emptyConfig, ""⟩ ⟨"t", "f", "", "1.0.0", false⟩).2 = false :=
  (updateConfig_gate ⟨emptyConfig, ""⟩ ⟨"t", "f", "", "1.0.0", false⟩).2.2.2 rfl

/-- Claim C7: the error-classification predicate returns true iff the
configuration flag is set and the status code is Unimplemented; with the
flag unset it returns false for every error. -/
theorem shouldIgnoreError_spec (err : GrpcError) (cfg : Config) :
    (shouldIgnoreError err cfg = true ↔
      (cfg.ignoreUnimplementedRPC = true ∧ err.code = some unimplementedCode))
    ∧ (cfg.ignoreUnimplementedRPC = false → shouldIgnoreError err cfg = false) := by
  constructor
  · cases hf : cfg.ignoreUnimplementedRPC with
    | false =>
        simp [shouldIgnoreError, hf]
    | true =>
        cases hc : err.code with
        | none => simp [shouldIgnoreError, hf, hc]
        | some c =>
            simp [shouldIgnoreError, hf, hc, unimplementedCode]
  · intro h
    simp [shouldIgnoreError, h]

/-- Witness for shouldIgnoreError_spec: with the flag unset, even a genuine
Unimplemented error is not ignorable. -/
theorem shouldIgnoreError_spec_witness :
    shouldIgnoreError ⟨some unimplementedCode⟩ emptyConfig = false :=
  (shouldIgnoreError_spec ⟨some unimplementedCode⟩ emptyConfig).2 rfl

/-- Claim C5: when the firmware-update RPC fails with a non-ignorable
error, performUpdate ends in the failure branch and its trace is exactly
the two diagnostic calls followed by the failed update call: no save, no
reboot, no polling, no verification, no clear; consequently the durable
store is left in its pre-workflow state whatever that state was. -/
theorem update_failure_stops_workflow (cfg : Config) (env : UpdateEnv)
    (e : GrpcError) (hu : env.updateResult = some e)
    (hi : shouldIgnoreError e cfg = false) :
    performUpdate true cfg env
      = ⟨[Event.getTime env.timeResult,
          Event.osVerifyPre env.osResult,
          Event.updateFirmware (mkFirmwareParams cfg) (some e)], true⟩
    ∧ ∀ s0 : Option UpgradeState,
        storeAt s0 (performUpdate true cfg env).trace = s0 := by
  have ht : performUpdate true cfg env
      = ⟨[Event.getTime env.timeResult,
          Event.osVerifyPre env.osResult,
          Event.updateFirmware (mkFirmwareParams cfg) (some e)], true⟩ := by
    simp [performUpdate, updateTreatedOk, hu, hi]
  refine ⟨ht, ?_⟩
  intro s0
  rw [ht]
  simp [storeAt, applyEvent]

/-- Witness for update_failure_stops_workflow at a concrete configuration
and an environment whose update RPC fails with a real error. -/
theorem update_failure_stops_workflow_witness :
    (performUpdate true ⟨"t", "fw", "", "2.0.0", false⟩
        ⟨RpcResult.ok 0, RpcResult.ok ⟨"1.0.0", ""⟩, some ⟨some 13⟩, true, none,
         RpcResult.ok ⟨"1.0.0", ""⟩, true⟩).failed = true := by
  have h := update_failure_stops_workflow ⟨"t", "fw", "", "2.0.0", false⟩
    ⟨RpcResult.ok 0, RpcResult.ok ⟨"1.0.0", ""⟩, some ⟨some 13⟩, true, none,
     RpcResult.ok ⟨"1.0.0", ""⟩, true⟩ ⟨some 13⟩ rfl rfl
  rw [h.1]

/-- Claim C8: when the Reboot RPC fails with an ignorable error,
performUpdate invokes the verification logic synchronously in-process and
its trace, given explicitly, contains no reboot-status poll; when the
Reboot RPC fails with a non-ignorable error, the clear of the durable
record immediately follows the reboot call, the store ends empty (when the
Remove succeeds), no verification event occurs, and the run does not end
in the failure branch. -/
theorem reboot_failure_handling (cfg : Config) (env : UpdateEnv)
    (e : GrpcError) (hu : updateTreatedOk cfg env = true)
    (hr : env.rebootResult = some e) :
    (shouldIgnoreError e cfg = true →
      performUpdate true cfg env
        = ⟨[Event.getTime env.timeResult,
            Event.osVerifyPre env.osResult,
            Event.updateFirmware (mkFirmwareParams cfg) env.updateResult,
            Event.saveState (mkUpgradeRecord cfg) env.saveOk,
            Event.rebootCall (some e)]
            ++ performPostRebootVerification cfg env.postOsResult env.clearOk, false⟩)
    ∧ (shouldIgnoreError e cfg = false →
      performUpdate true cfg env
        = ⟨[Event.getTime env.timeResult,
            Event.osVerifyPre env.osResult,
            Event.updateFirmware (mkFirmwareParams cfg) env.updateResult,
            Event.saveState (mkUpgradeRecord cfg) env.saveOk,
            Event.rebootCall (some e),
            Event.clearState env.clearOk], false⟩
      ∧ (env.clearOk = true →
          storeAt none (performUpdate true cfg env).trace = none)) := by
  constructor
  · intro hi
    simp [performUpdate, hu, hr, hi]
  · intro hi
    have ht : performUpdate true cfg env
        = ⟨[Event.getTime env.timeResult,
            Event.osVerifyPre env.osResult,
            Event.updateFirmware (mkFirmwareParams cfg) env.updateResult,
            Event.saveState (mkUpgradeRecord cfg) env.saveOk,
            Event.rebootCall (some e),
            Event.clearState env.clearOk], false⟩ := by
      simp [performUpdate, hu, hr, hi]
    refine ⟨ht, ?_⟩
    intro hc
    rw [ht]
    cases hsv : env.saveOk <;>
      simp [storeAt, applyEvent, hc, hsv]

/-- Witness for reboot_failure_handling: a concrete run where the Reboot
RPC fails with a real error; the record is cleared immediately and the
store ends empty. -/
theorem reboot_failure_handling_witness :
    storeAt none (performUpdate true ⟨"t", "fw", "", "2.0.0", false⟩
        ⟨RpcResult.ok 0, RpcResult.ok ⟨"1.0.0", ""⟩, none, true, some ⟨some 14⟩,
         RpcResult.ok ⟨"1.0.0", ""⟩, true⟩).trace = none :=
  ((reboot_failure_handling ⟨"t", "fw", "", "2.0.0", false⟩
      ⟨RpcResult.ok 0, RpcResult.ok ⟨"1.0.0", ""⟩, none, true, some ⟨some 14⟩,
       RpcResult.ok ⟨"1.0.0", ""⟩, true⟩ ⟨some 14⟩ rfl rfl).2 rfl).2 rfl

/-- Configuration differing from emptyConfig only in the CPLD option
string, used to evaluate the string comparison on concrete values. -/
def cfgWithCpld (s : String) : Config :=
  { grpcTarget := ""
    firmwareSource := ""
    updateMlnxCpldFw := s
    targetVersion := ""
    ignoreUnimplementedRPC := false }

/-- Claim C10: the boolean CPLD option sent in the update RPC is true iff
the configuration string is exactly "true"; the variants "True", "1",
"yes" and the empty string all disable it; and the parameters carried by
the update-RPC event of every performUpdate trace are exactly
mkFirmwareParams cfg. -/
theorem cpld_flag_string_compare (cfg : Config) (env : UpdateEnv) :
    ((mkFirmwareParams cfg).updateMlnxCpldFw = true ↔ cfg.updateMlnxCpldFw = "true")
    ∧ (mkFirmwareParams cfg).firmwareSource = cfg.firmwareSource
    ∧ (performUpdate true cfg env).trace.get? 2
        = some (Event.updateFirmware (mkFirmwareParams cfg) env.updateResult)
    ∧ (mkFirmwareParams (cfgWithCpld "True")).updateMlnxCpldFw = false
    ∧ (mkFirmwareParams (cfgWithCpld "1")).updateMlnxCpldFw = false
    ∧ (mkFirmwareParams (cfgWithCpld "yes")).updateMlnxCpldFw = false
    ∧ (mkFirmwareParams (cfgWithCpld "")).updateMlnxCpldFw = false := by
  refine ⟨?_, rfl, ?_, by decide, by decide, by decide, by decide⟩
  · simp [mkFirmwareParams, beq_iff_eq]
  · by_cases hu : updateTreatedOk cfg env = true
    · cases hr : env.rebootResult with
      | none => simp [performUpdate, hu, hr]
      | some e =>
          by_cases hi : shouldIgnoreError e cfg
          · simp [performUpdate, hu, hr, hi]
          · simp [performUpdate, hu, hr, hi]
    · simp [performUpdate, hu]

/-- Witness for cpld_flag_string_compare: the option is enabled exactly by
the lowercase string "true". -/
theorem cpld_flag_string_compare_witness :
    (mkFirmwareParams (cfgWithCpld "true")).updateMlnxCpldFw = true :=
  (cpld_flag_string_compare (cfgWithCpld "true")
    ⟨RpcResult.ok 0, RpcResult.ok ⟨"", ""⟩, none, true, none,
     RpcResult.ok ⟨"", ""⟩, true⟩).1.mpr rfl

/-- Coarse state carried by a firmware-update progress event
(gnoi_sonic stream response). -/
inductive FwState where
  | started
  | running
  | succeeded
  | updateFailed
  deriving DecidableEq, Repr

/-- One progress event of the firmware-update stream: a log line, a coarse
state, and an exit code (meaningful only when the state is FAILED). -/
structure ProgressEvent where
  logLine : String
  state : FwState
  exitCode : Nat
  deriving DecidableEq, Repr

/-- Environment of one Client.UpdateFirmware call: the outcome of opening
the stream, of Send, of CloseSend, the progress events the stream yields,
and how the receive loop ends (none for a clean EOF, some e for a
transport error surfaced by Recv). -/
structure StreamEnv where
  openErr : Option GrpcError
  sendErr : Option GrpcError
  closeSendErr : Option GrpcError
  events : List ProgressEvent
  tailErr : Option GrpcError
  deriving DecidableEq, Repr

/-- Result of one Client.UpdateFirmware call: the error it returned (none
is success), the requests it sent on the stream, and whether the send side
was half-closed. -/
structure FwUpdateRun where
  outcome : Option GrpcError
  sent : List FirmwareUpdateParams
  halfClosed : Bool
  deriving DecidableEq, Repr

/-- Translation of Client.UpdateFirmware (grpcclient): open the stream,
send the single request carrying the parameters, CloseSend, then Recv in a
loop, logging each progress event, until EOF or a transport error. The
events themselves, including a terminal event whose coarse state is
FAILED, are only logged: the returned error is determined solely by the
four transport outcomes. -/
def clientUpdateFirmware (params : FirmwareUpdateParams) (env : StreamEnv) : FwUpdateRun :=
  match env.openErr with
  | some e => ⟨some e, [], false⟩
  | none =>
    match env.sendErr with
    | some e => ⟨some e, [params], false⟩
    | none =>
      match env.closeSendErr with
      | some e => ⟨some e, [params], false⟩
      | none => ⟨env.tailErr, [params], true⟩

/-- Claim C6: the UpdateFirmware client call succeeds iff the stream
completes without a transport error; on the success path exactly one
request carrying the parameters was sent and the send side was
half-closed; the progress events have no effect on the outcome, so a
terminal FAILED event still yields success; and a successful outcome lets
performUpdate proceed to the boundary save and the reboot call. -/
theorem updateFirmware_stream_outcome (cfg : Config) (params : FirmwareUpdateParams)
    (env : StreamEnv) :
    ((clientUpdateFirmware params env).outcome = none ↔
      (env.openErr = none ∧ env.sendErr = none
        ∧ env.closeSendErr = none ∧ env.tailErr = none))
    ∧ (env.openErr = none → (clientUpdateFirmware params env).sent = [params])
    ∧ ((clientUpdateFirmware params env).outcome = none →
        (clientUpdateFirmware params env).halfClosed = true)
    ∧ (∀ evs : List ProgressEvent,
        clientUpdateFirmware params
          ⟨env.openErr, env.sendErr, env.closeSendErr, evs, env.tailErr⟩
          = clientUpdateFirmware params env)
    ∧ (∀ uenv : UpdateEnv, uenv.updateResult = none →
        (performUpdate true cfg uenv).failed = false
        ∧ (performUpdate true cfg uenv).trace.get? 3
            = some (Event.saveState (mkUpgradeRecord cfg) uenv.saveOk)
        ∧ (performUpdate true cfg uenv).trace.get? 4
            = some (Event.rebootCall uenv.rebootResult)) := by
  refine ⟨?_, ?_, ?_, ?_, ?_⟩
  · cases ho : env.openErr with
    | some e => simp [clientUpdateFirmware, ho]
    | none =>
      cases hs : env.sendErr with
      | some e => simp [clientUpdateFirmware, ho, hs]
      | none =>
        cases hc : env.closeSendErr with
        | some e => simp [clientUpdateFirmware, ho, hs, hc]
        | none => simp [clientUpdateFirmware, ho, hs, hc]
  · intro ho
    cases hs : env.sendErr with
    | some e => simp [clientUpdateFirmware, ho, hs]
    | none =>
      cases hc : env.closeSendErr with
      | some e => simp [clientUpdateFirmware, ho, hs, hc]
      | none => simp [clientUpdateFirmware, ho, hs, hc]
  · intro h
    cases ho : env.openErr with
    | some e => simp [clientUpdateFirmware, ho] at h
    | none =>
      cases hs : env.sendErr with
      | some e => simp [clientUpdateFirmware, ho, hs] at h
      | none =>
        cases hc : env.closeSendErr with
        | some e => simp [clientUpdateFirmware, ho, hs, hc] at h
        | none => simp [clientUpdateFirmware, ho, hs, hc]
  · intro evs
    cases env
    simp [clientUpdateFirmware]
  · intro uenv hu
    have hok : updateTreatedOk cfg uenv = true := by
      simp [updateTreatedOk, hu]
    refine ⟨?_, ?_, ?_⟩
    · cases hr : uenv.rebootResult with
      | none => simp [performUpdate, hok, hr]
      | some e =>
          by_cases hi : shouldIgnoreError e cfg
          · simp [performUpdate, hok, hr, hi]
          · simp [performUpdate, hok, hr, hi]
    · cases hr : uenv.rebootResult with
      | none => simp [performUpdate, hok, hr]
      | some e =>
          by_cases hi : shouldIgnoreError e cfg
          · simp [performUpdate, hok, hr, hi]
          · simp [performUpdate, hok, hr, hi]
    · cases hr : uenv.rebootResult with
      | none => simp [performUpdate, hok, hr]
      | some e =>
          by_cases hi : shouldIgnoreError e cfg
          · simp [performUpdate, hok, hr, hi]
          · simp [performUpdate, hok, hr, hi]

/-- Witness for updateFirmware_stream_outcome: a stream that ends cleanly
after a terminal FAILED progress event with exit code 130 still yields a
successful outcome. -/
theorem updateFirmware_stream_outcome_witness :
    (clientUpdateFirmware ⟨"fw", false⟩
        ⟨none, none, none, [⟨"boom", FwState.updateFailed, 130⟩], none⟩).outcome
      = none :=
  ((updateFirmware_stream_outcome emptyConfig ⟨"fw", false⟩
      ⟨none, none, none, [⟨"boom", FwState.updateFailed, 130⟩], none⟩).1).mpr
    ⟨rfl, rfl, rfl, rfl⟩

/-- Live configuration handed to Initialize in the C3 counterexample. -/
def cfgLiveW : Config :=
  { grpcTarget := "t"
    firmwareSource := "fw"
    updateMlnxCpldFw := ""
    targetVersion := "1.0.0"
    ignoreUnimplementedRPC := false }

/-- Persisted upgrade record in the C3 counterexample: written during an
earlier workflow whose configuration had target version 2.0.0 and the
ignore flag set, so it differs from the live configuration. -/
def persistedW : UpgradeState :=
  { inProgress := true
    targetVersion := "2.0.0"
    config :=
      { grpcTarget := "t"
        firmwareSource := "fw"
        updateMlnxCpldFw := ""
        targetVersion := "2.0.0"
        ignoreUnimplementedRPC := true } }

/-- Counterexample to claim C3 as stated: with a persisted record whose
configuration differs from the live one, the verification tail spawned by
Initialize is exactly the one obtained from the live configuration and is
not the one the persisted configuration would produce (its entry log line
prints the live target version 1.0.0, not the persisted 2.0.0): the code
passes the Initialize argument cfg to performPostRebootVerification and
never reads the Config field of the loaded record. -/
theorem resume_uses_live_config_cex :
    Initialize cfgLiveW (some persistedW) true true (RpcResult.ok ⟨"2.0.0", ""⟩) true
      = performPostRebootVerification cfgLiveW (RpcResult.ok ⟨"2.0.0", ""⟩) true
    ∧ Initialize cfgLiveW (some persistedW) true true (RpcResult.ok ⟨"2.0.0", ""⟩) true
      ≠ performPostRebootVerification persistedW.config (RpcResult.ok ⟨"2.0.0", ""⟩) true
    ∧ persistedW.config ≠ cfgLiveW := by
  decide

/-- Claim C3 amended: on Initialize with a loaded record reporting
InProgress true, the verification tail is spawned asynchronously using the
configuration passed to Initialize (the live initial configuration); the
configuration persisted in the record is loaded but not used. With
InProgress false nothing is spawned. -/
theorem resume_uses_initialize_config (liveCfg : Config) (st : UpgradeState)
    (postOs : RpcResult OsVerifyResp) (clearOk : Bool) :
    (st.inProgress = true →
      Initialize liveCfg (some st) true true postOs clearOk
        = performPostRebootVerification liveCfg postOs clearOk)
    ∧ (st.inProgress = false →
      Initialize liveCfg (some st) true true postOs clearOk = []) := by
  constructor
  · intro h
    simp [Initialize, loadUpgradeState, h]
  · intro h
    simp [Initialize, loadUpgradeState, h]

/-- Witness for resume_uses_initialize_config at the concrete inputs of the
counterexample. -/
theorem resume_uses_initialize_config_witness :
    Initialize cfgLiveW (some persistedW) true true (RpcResult.ok ⟨"2.0.0", ""⟩) true
      = performPostRebootVerification cfgLiveW (RpcResult.ok ⟨"2.0.0", ""⟩) true :=
  (resume_uses_initialize_config cfgLiveW persistedW
    (RpcResult.ok ⟨"2.0.0", ""⟩) true).1 rfl

/-- The full observable execution of one workflow started on an empty
durable store: the performUpdate invocation and, when the reboot request
succeeded (so the process is killed by the reboot), the restart in which
Initialize resumes from the store the first invocation left behind. The
restart may see a different live configuration restartCfg. -/
def fullExec (cfg : Config) (env : UpdateEnv) (restartCfg : Config)
    (postOs2 : RpcResult OsVerifyResp) (clearOk2 : Bool) : List Event :=
  let t1 := (performUpdate true cfg env).trace
  match env.rebootResult with
  | none =>
    if updateTreatedOk cfg env then
      t1 ++ Initialize restartCfg (storeAt none t1) true true postOs2 clearOk2
    else t1
  | some _ => t1

/-- Claim C4 amended: assuming the durable-store file operations succeed,
at every observation point of every execution path (including the restart
after a successful reboot) the InProgress flag is true iff the boundary
save has completed before the point and no clear has completed before it;
the window therefore opens at the save that follows a successful (or
ignorably failed) update RPC and closes at the first clear, which ends
verification when verification runs and immediately follows a
non-ignorable Reboot failure otherwise. Moreover the verification step
always ends with the clear, whatever its GetOSVersion call returned. -/
theorem inProgress_window (cfg restartCfg : Config) (env : UpdateEnv)
    (postOs2 : RpcResult OsVerifyResp)
    (hsave : env.saveOk = true) (hclear : env.clearOk = true) :
    (∀ k, k ≤ (fullExec cfg env restartCfg postOs2 true).length →
      flagAt (fullExec cfg env restartCfg postOs2 true) k
        = (savedBefore (fullExec cfg env restartCfg postOs2 true) k
            && !clearedBefore (fullExec cfg env restartCfg postOs2 true) k))
    ∧ (∀ (c : Config) (p : RpcResult OsVerifyResp) (co : Bool),
        (performPostRebootVerification c p co).getLast?
          = some (Event.clearState co)) := by
  refine ⟨?_, fun c p co => rfl⟩
  intro k hk
  cases hu : updateTreatedOk cfg env with
  | false =>
    cases hr : env.rebootResult with
    | none =>
      simp only [fullExec, performUpdate, hu, hr, Bool.not_true, Bool.not_false,
        if_false, if_true, List.length] at hk ⊢
      interval_cases k <;>
        simp [flagAt, storeAt, applyEvent, savedBefore, clearedBefore,
          isSaveOkEvent, isClearOkEvent]
    | some e =>
      simp only [fullExec, performUpdate, hu, hr, Bool.not_true, Bool.not_false,
        if_false, if_true, List.length] at hk ⊢
      interval_cases k <;>
        simp [flagAt, storeAt, applyEvent, savedBefore, clearedBefore,
          isSaveOkEvent, isClearOkEvent]
  | true =>
    cases hr : env.rebootResult with
    | some e =>
      cases hi : shouldIgnoreError e cfg with
      | true =>
        simp only [fullExec, performUpdate, performPostRebootVerification, hu, hr,
          hi, hsave, hclear, Bool.not_true, Bool.not_false, if_false, if_true,
          List.append_assoc, List.cons_append, List.nil_append,
          List.length] at hk ⊢
        interval_cases k <;>
          simp [flagAt, storeAt, applyEvent, savedBefore, clearedBefore,
            isSaveOkEvent, isClearOkEvent, mkUpgradeRecord]
      | false =>
        simp only [fullExec, performUpdate, hu, hr, hi, hsave, hclear,
          Bool.not_true, Bool.not_false, if_false, if_true,
          List.append_assoc, List.cons_append, List.nil_append,
          List.length] at hk ⊢
        interval_cases k <;>
          simp [flagAt, storeAt, applyEvent, savedBefore, clearedBefore,
            isSaveOkEvent, isClearOkEvent, mkUpgradeRecord]
    | none =>
      simp only [fullExec, performUpdate, performPostRebootVerification,
        Initialize, loadUpgradeState, hu, hr, hsave, hclear,
        Bool.not_true, Bool.not_false, if_false, if_true,
        List.append_assoc, List.cons_append, List.nil_append,
        storeAt, List.foldl, applyEvent, mkUpgradeRecord,
        List.length] at hk ⊢
      interval_cases k <;>
        simp [flagAt, storeAt, applyEvent, savedBefore, clearedBefore,
          isSaveOkEvent, isClearOkEvent, mkUpgradeRecord]

/-- Environment for the C4 counterexample: the update RPC succeeds, the
boundary save succeeds, the Reboot RPC fails with a real (non-ignorable)
error, and the immediate clear succeeds. -/
def envRebootFailW : UpdateEnv :=
  { timeResult := RpcResult.ok 0
    osResult := RpcResult.ok ⟨"1.0.0", ""⟩
    updateResult := none
    saveOk := true
    rebootResult := some ⟨some 14⟩
    postOsResult := RpcResult.ok ⟨"1.0.0", ""⟩
    clearOk := true }

/-- Configuration used in the C4 counterexample. -/
def cfgW4 : Config :=
  { grpcTarget := "t"
    firmwareSource := "fw"
    updateMlnxCpldFw := ""
    targetVersion := "2.0.0"
    ignoreUnimplementedRPC := false }

/-- True of the events of the verification step (the entry log line and the
post-reboot GetOSVersion call). -/
def isVerificationEvent : Event → Bool
  | Event.logStartVerification _ => true
  | Event.osVerifyPost _ => true
  | _ => false

/-- Counterexample to claim C4 as stated: in the execution where the update
RPC succeeds but the Reboot RPC fails with a real error, the update RPC
has reported success before observation point 4 and no verification event
occurs anywhere in the trace, so verification never completes; yet the
InProgress flag is true at point 4 (between the save and the clear) and
false again at point 6. Whichever way the interval between update success
and verification completion is read on this path, the flag fails
to be false exactly outside it, so the stated boundaries are wrong: the
window is bounded by the save and the first clear, not by update success
and verification completion. -/
theorem inProgress_window_cex :
    (fullExec cfgW4 envRebootFailW cfgW4 (RpcResult.ok ⟨"1.0.0", ""⟩) true).get? 2
      = some (Event.updateFirmware (mkFirmwareParams cfgW4) none)
    ∧ ((fullExec cfgW4 envRebootFailW cfgW4 (RpcResult.ok ⟨"1.0.0", ""⟩) true).all
        (fun ev => !isVerificationEvent ev)) = true
    ∧ flagAt (fullExec cfgW4 envRebootFailW cfgW4 (RpcResult.ok ⟨"1.0.0", ""⟩) true) 4
        = true
    ∧ flagAt (fullExec cfgW4 envRebootFailW cfgW4 (RpcResult.ok ⟨"1.0.0", ""⟩) true) 6
        = false := by
  decide

/-- Witness for inProgress_window at the concrete counterexample inputs:
point 4 lies after the completed save and before any clear, and the flag
is true there. -/
theorem inProgress_window_witness :
    flagAt (fullExec cfgW4 envRebootFailW cfgW4 (RpcResult.ok ⟨"1.0.0", ""⟩) true) 4
      = (savedBefore (fullExec cfgW4 envRebootFailW cfgW4 (RpcResult.ok ⟨"1.0.0", ""⟩) true) 4
          && !clearedBefore (fullExec cfgW4 envRebootFailW cfgW4 (RpcResult.ok ⟨"1.0.0", ""⟩) true) 4) :=
  (inProgress_window cfgW4 cfgW4 envRebootFailW (RpcResult.ok ⟨"1.0.0", ""⟩)
    rfl rfl).1 4 (by decide)

/-- Reason the reboot-status poll loop of the src/internal agent version
stops. There is no failure exit: the deadline exit proceeds exactly like
the others. -/
inductive PollExit where
  | rebootFinished
  | assumedCompleteIgnorable
  | deadlineElapsed
  deriving DecidableEq, Repr

/-- Whether one GetRebootStatus outcome keeps the loop polling: an active
reboot keeps polling, and so does any call failure that is not classified
as ignorable (device unreachability during a real reboot is expected). -/
def continuePolling (cfg : Config) (r : RpcResult Bool) : Bool :=
  match r with
  | RpcResult.ok active => active
  | RpcResult.err e => !shouldIgnoreError e cfg

/-- Translation of the reboot-status poll loop of performUpdate in
internal/agent/agent.go (the version with polling): after the fixed
settling sleep, each iteration is one ticker firing whose GetRebootStatus
outcome is outcomes i (the response payload is its Active flag); fuel is
the number of firings the five-minute overall deadline context still
allows, and its exhaustion is the select arm on the deadline, which exits
the loop assuming completion. An ignorable call failure exits assuming
completion; a non-ignorable call failure and an active reboot both
continue polling. -/
def pollRebootStatus (cfg : Config) (outcomes : Nat → RpcResult Bool) :
    Nat → Nat → PollExit
  | 0, _ => PollExit.deadlineElapsed
  | fuel + 1, i =>
    match outcomes i with
    | RpcResult.err e =>
      if shouldIgnoreError e cfg then PollExit.assumedCompleteIgnorable
      else pollRebootStatus cfg outcomes fuel (i + 1)
    | RpcResult.ok active =>
      if active then pollRebootStatus cfg outcomes fuel (i + 1)
      else PollExit.rebootFinished

/-- Claim C9: the poll loop is a total function of the deadline fuel, and
its exits are exactly the three stated ones: rebootFinished only when some
polled response reported no active reboot, assumedCompleteIgnorable only
when some poll failed with an error classified as ignorable, and when
every poll within the deadline says to continue (active reboot, or a
non-ignorable failure) the loop ends by the deadline elapsing; a single
non-ignorable failure never terminates the loop by itself, it just moves
to the next iteration. -/
theorem poll_loop_termination (cfg : Config) (outcomes : Nat → RpcResult Bool)
    (fuel i : Nat) :
    (pollRebootStatus cfg outcomes fuel i = PollExit.rebootFinished →
      ∃ j, j < fuel ∧ outcomes (i + j) = RpcResult.ok false)
    ∧ (pollRebootStatus cfg outcomes fuel i = PollExit.assumedCompleteIgnorable →
      ∃ j, j < fuel ∧ ∃ e, outcomes (i + j) = RpcResult.err e
        ∧ shouldIgnoreError e cfg = true)
    ∧ ((∀ j, j < fuel → continuePolling cfg (outcomes (i + j)) = true) →
      pollRebootStatus cfg outcomes fuel i = PollExit.deadlineElapsed)
    ∧ (∀ e, outcomes i = RpcResult.err e → shouldIgnoreError e cfg = false →
      pollRebootStatus cfg outcomes (fuel + 1) i
        = pollRebootStatus cfg outcomes fuel (i + 1)) := by
  induction fuel generalizing i with
  | zero =>
    refine ⟨?_, ?_, ?_, ?_⟩
    · intro h
      simp [pollRebootStatus] at h
    · intro h
      simp [pollRebootStatus] at h
    · intro _
      rfl
    · intro e he hig
      simp [pollRebootStatus, he, hig]
  | succ n ih =>
    refine ⟨?_, ?_, ?_, ?_⟩
    · intro h
      cases ho : outcomes i with
      | ok active =>
        cases active with
        | true =>
          rw [pollRebootStatus, ho] at h
          simp only [if_true] at h
          obtain ⟨j, hj, hoj⟩ := (ih (i + 1)).1 h
          refine ⟨j + 1, by omega, ?_⟩
          have harith : i + (j + 1) = i + 1 + j := by omega
          rw [harith]
          exact hoj
        | false =>
          exact ⟨0, by omega, by simpa using ho⟩
      | err e =>
        rw [pollRebootStatus, ho] at h
        cases hig : shouldIgnoreError e cfg with
        | true => simp [hig] at h
        | false =>
          simp only [hig, if_false, Bool.false_eq_true] at h
          obtain ⟨j, hj, hoj⟩ := (ih (i + 1)).1 h
          refine ⟨j + 1, by omega, ?_⟩
          have harith : i + (j + 1) = i + 1 + j := by omega
          rw [harith]
          exact hoj
    · intro h
      cases ho : outcomes i with
      | ok active =>
        rw [pollRebootStatus, ho] at h
        cases active with
        | true =>
          simp only [if_true] at h
          obtain ⟨j, hj, he⟩ := (ih (i + 1)).2.1 h
          refine ⟨j + 1, by omega, ?_⟩
          have harith : i + (j + 1) = i + 1 + j := by omega
          rw [harith]
          exact he
        | false => simp at h
      | err e =>
        rw [pollRebootStatus, ho] at h
        cases hig : shouldIgnoreError e cfg with
        | true =>
          exact ⟨0, by omega, e, by simpa using ho, hig⟩
        | false =>
          simp only [hig, if_false, Bool.false_eq_true] at h
          obtain ⟨j, hj, he⟩ := (ih (i + 1)).2.1 h
          refine ⟨j + 1, by omega, ?_⟩
          have harith : i + (j + 1) = i + 1 + j := by omega
          rw [harith]
          exact he
    · intro hall
      have h0 := hall 0 (by omega)
      rw [Nat.add_zero] at h0
      cases ho : outcomes i with
      | ok active =>
        rw [ho] at h0
        cases active with
        | true =>
          rw [pollRebootStatus, ho]
          simp only [if_true]
          refine (ih (i + 1)).2.2.1 ?_
          intro j hj
          have := hall (j + 1) (by omega)
          have harith : i + (j + 1) = i + 1 + j := by omega
          rw [harith] at this
          exact this
        | false =>
          simp [continuePolling] at h0
      | err e =>
        rw [ho] at h0
        have hig : shouldIgnoreError e cfg = false := by
          simpa [continuePolling] using h0
        rw [pollRebootStatus, ho]
        simp only [hig, if_false, Bool.false_eq_true]
        refine (ih (i + 1)).2.2.1 ?_
        intro j hj
        have := hall (j + 1) (by omega)
        have harith : i + (j + 1) = i + 1 + j := by omega
        rw [harith] at this
        exact this
    · intro e he hig
      simp [pollRebootStatus, he, hig]

/-- GetRebootStatus outcomes of a device that stays unreachable for the
whole deadline: every call fails with a plain connection error carrying no
gRPC status. -/
def pollAlwaysDown : Nat → RpcResult Bool := fun _ => RpcResult.err ⟨none⟩

/-- Witness for poll_loop_termination: a device unreachable for all thirty
ticks makes every iteration continue (the failures are not ignorable), and
the loop terminates by the deadline elapsing. -/
theorem poll_loop_termination_witness :
    pollRebootStatus emptyConfig pollAlwaysDown 30 0 = PollExit.deadlineElapsed :=
  (poll_loop_termination emptyConfig pollAlwaysDown 30 0).2.2.1 (fun _ _ => rfl)

end UpgradeAgent
